import Mathlib

/-!
Verification of the timebook timesheet state engine (timebook/commands.py).

The storage state is modelled as the two relations of the data model: the
`entry` rows and the `meta.current_sheet` pointer.  Commands are modelled as
functions from the state to `Except Err DBState` (a raised error condition
aborts the command; the dispatcher's transaction then rolls the storage
back, which `runTxn` makes explicit).  Timestamps are integers (Unix
seconds); the chosen timestamp ("now" or the parsed `--at` value) is passed
in as an argument.
-/

namespace Timebook

/-- One `entry` row: a tracked interval of a sheet.  `end_time = none`
means "currently active". -/
structure Entry where
  id : Nat
  sheet : String
  start_time : Int
  end_time : Option Int
  description : Option String
  extra : Option String
deriving DecidableEq, Repr

/-- The persistent storage: the `entry` rows plus the `meta` singleton
`current_sheet` pointer. -/
structure DBState where
  entries : List Entry
  current_sheet : String
deriving DecidableEq, Repr

/-- The error conditions raised by the core commands (each is a
`SystemExit` with a fixed message in the source). -/
inductive Err where
  /-- `'error: timesheet already active'` (commands.py line 152). -/
  | sheetAlreadyActive
  /-- `'error: time periods could end up overlapping'` (line 158). -/
  | timeOrderingViolation
  /-- `'error: timesheet not active'` (lines 318 and 345). -/
  | sheetNotActive
  /-- `"Error: Negative active time"` (line 324). -/
  | negativeDuration
  /-- `'"--resume" already sets a description'` (line 146). -/
  | resumeConflict
deriving DecidableEq, Repr

/-- `run_command` (commands.py lines 83-106): the command runs inside a
transaction; on an exception the transaction is rolled back, so the
observable storage on failure is the initial state. -/
def runTxn (f : DBState → Except Err DBState) (db : DBState) :
    Option Err × DBState :=
  match f db with
  | .ok db2 => (none, db2)
  | .error e => (some e, db)

/-- Modelled from the spec: `dbutil.get_current_sheet` is missing from the
sources; per the spec, `meta.current_sheet` holds the name of the sheet
commands implicitly operate on. -/
def get_current_sheet (db : DBState) : String :=
  db.current_sheet

/-- Modelled from the spec: `dbutil.get_active_info` is missing from the
sources; per the spec it looks up the entry of `sheet` whose `end_time`
is null ("currently active"); callers use its presence and its row data. -/
def get_active_info (db : DBState) (sheet : String) : Option Entry :=
  db.entries.find? (fun e => e.sheet == sheet && e.end_time.isNone)

/-- Modelled from the spec: `dbutil.get_current_active_info` is missing
from the sources; it is the active entry of the current sheet. -/
def get_current_active_info (db : DBState) : Option Entry :=
  get_active_info db (get_current_sheet db)

/-- Modelled from the spec: `dbutil.get_current_start_time` is missing
from the sources; it is the id and `start_time` of the active entry of the
current sheet. -/
def get_current_start_time (db : DBState) : Option (Nat × Int) :=
  (get_current_active_info db).map (fun e => (e.id, e.start_time))

/-- Pick the pair with the greatest first component (the most recent
clock-out time); on a tie the earlier row wins, the tie order being
unspecified by the store. -/
def mrcAux : List (Int × Option String) → Option (Int × Option String)
  | [] => none
  | p :: ps =>
    match mrcAux ps with
    | none => some p
    | some q => if p.1 ≥ q.1 then some p else some q

/-- Modelled from the spec: `dbutil.get_most_recent_clockout` is missing
from the sources; per the spec it yields the `end_time` and description of
the most recently closed entry of `sheet` (the closed entry with the
greatest `end_time`), or nothing when the sheet has no closed entry. -/
def get_most_recent_clockout (db : DBState) (sheet : String) :
    Option (Int × Option String) :=
  mrcAux (db.entries.filterMap (fun e =>
    if e.sheet == sheet then e.end_time.map (fun t => (t, e.description))
    else none))

/-- The id the store assigns to the next inserted row (rowid-style:
one more than the greatest id present). -/
def nextId (db : DBState) : Nat :=
  (db.entries.map (fun e => e.id)).foldr max 0 + 1

/-- The `insert into entry (sheet, start_time, description, extra)`
statement of clock-in (commands.py lines 161-165): a fresh row with null
`end_time`. -/
def insertEntry (db : DBState) (sheet : String) (start : Int)
    (desc : Option String) (extra : Option String) : DBState :=
  { db with entries := db.entries ++
      [{ id := nextId db, sheet := sheet, start_time := start,
         end_time := none, description := desc, extra := extra }] }

/-- `switch` (commands.py lines 263-296): sets `meta.current_sheet` to the
target, skipping the write when it is already current.  The verbosity
flag only affects printing. -/
def switch (db : DBState) (timesheet : String) : DBState :=
  if get_current_sheet db ≠ timesheet then
    { db with current_sheet := timesheet }
  else db

/-- `clock_out` (commands.py lines 313-332): fails when the current sheet
has no active entry; computes `active_time = timestamp - start_time` and
fails when it is negative; otherwise sets `end_time = timestamp` on the
active row (update by id). -/
def clock_out (db : DBState) (timestamp : Int) : Except Err DBState :=
  match get_current_start_time db with
  | none => .error .sheetNotActive
  | some a =>
    let active_time := timestamp - a.2
    if active_time < 0 then .error .negativeDuration
    else .ok { db with entries := db.entries.map (fun e =>
        if e.id = a.1 then { e with end_time := some timestamp } else e) }

/-- `' '.join(description) or None` (commands.py line 154): the joined
word list, with the empty string replaced by null. -/
def joinWords (ws : List String) : Option String :=
  let s := String.intercalate " " ws
  if s = "" then none else some s

/-- The sheet a clock-in targets (commands.py lines 140-144): the
`--switch` argument when given (and truthy), else the current sheet. -/
def targetSheet (db : DBState) (sw : Option String) : String :=
  match sw with
  | some s => if s = "" then get_current_sheet db else s
  | none => get_current_sheet db

/-- The switch side effect of clock-in's `--switch` option (commands.py
lines 141-142): the switch command runs when the argument is truthy. -/
def applySwitch (db : DBState) (sw : Option String) : DBState :=
  match sw with
  | some s => if s = "" then db else switch db s
  | none => db

/-- The body of `in_` after sheet resolution (commands.py lines 145-165):
reject `--resume` combined with an explicit description; clock out first
when `--out`; fail when the target sheet is already active; fail when the
timestamp precedes the most recent clock-out; on `--resume` reuse the
previous description; insert the new active row. -/
def in_core (db : DBState) (sheet : String) (description : List String)
    (out : Bool) (timestamp : Int) (resume : Bool) (extra : Option String) :
    Except Err DBState :=
  if resume ∧ description ≠ [] then .error .resumeConflict
  else
    match (if out then clock_out db timestamp else .ok db) with
    | .error e => .error e
    | .ok db1 =>
      match get_active_info db1 sheet with
      | some _ => .error .sheetAlreadyActive
      | none =>
        let desc0 := joinWords description
        match get_most_recent_clockout db1 sheet with
        | some p =>
          if timestamp < p.1 then .error .timeOrderingViolation
          else .ok (insertEntry db1 sheet timestamp
              (if resume then p.2 else desc0) extra)
        | none => .ok (insertEntry db1 sheet timestamp desc0 extra)

/-- `in_` (commands.py lines 121-165): resolve the target sheet (running
the switch command when `--switch` is given), then run the clock-in body. -/
def in_ (db : DBState) (description : List String) (sw : Option String)
    (out : Bool) (timestamp : Int) (resume : Bool) (extra : Option String) :
    Except Err DBState :=
  in_core (applySwitch db sw) (targetSheet db sw) description out timestamp
    resume extra

/-- `alter` (commands.py lines 334-354): fails when the current sheet has
no active entry; otherwise sets `description = ' '.join(description)` on
the active row (update by id). -/
def alter (db : DBState) (description : List String) : Except Err DBState :=
  match get_current_active_info db with
  | none => .error .sheetNotActive
  | some a => .ok { db with entries := db.entries.map (fun e =>
      if e.id = a.id then
        { e with description := some (String.intercalate " " description) }
      else e) }

/-- `kill` (commands.py lines 167-196): the sheet to delete is the
argument when given (and truthy), else the current sheet, and only in the
latter case is a switch to "default" scheduled.  Without confirmation
nothing is mutated and the outcome is a normal cancellation (the returned
flag is `true` when the cancellation message was printed).  With
confirmation all rows of the sheet are deleted and the scheduled switch
runs. -/
def kill (db : DBState) (timesheet : Option String) (confirm : Bool) :
    DBState × Bool :=
  let td : String × Bool :=
    match timesheet with
    | some s =>
      if s = "" then (get_current_sheet db, true) else (s, false)
    | none => (get_current_sheet db, true)
  if ¬confirm then (db, true)
  else
    let db1 : DBState :=
      { db with entries := db.entries.filter (fun e => e.sheet ≠ td.1) }
    (if td.2 then switch db1 "default" else db1, false)

/-- The `start_time >= start_date` condition of display's where clause
(commands.py lines 460-462), absent when no start bound is given. -/
def startPass (startB : Option Int) (e : Entry) : Bool :=
  match startB with
  | none => true
  | some s => decide (e.start_time ≥ s)

/-- The `end_time <= end_date` condition of display's where clause
(commands.py lines 463-465), absent when no end bound is given.  A null
`end_time` compares as SQL NULL, so the row is excluded. -/
def endPass (endB : Option Int) (e : Entry) : Bool :=
  match endB with
  | none => true
  | some t =>
    match e.end_time with
    | none => false
    | some et => decide (et ≤ t)

/-- The full where clause built by `display` (commands.py lines 458-465). -/
def passesWhere (startB endB : Option Int) (e : Entry) : Bool :=
  startPass startB e && endPass endB e

/-- The rows of `sheet` satisfying display's where clause: the row set
every query of `format_timebook` ranges over. -/
def filteredEntries (db : DBState) (sheet : String) (startB endB : Option Int) :
    List Entry :=
  db.entries.filter (fun e => e.sheet == sheet && passesWhere startB endB e)

/-- `ifnull(end_time, strftime('%s','now')) - start_time`: the duration of
an entry, an open interval lasting through "now". -/
def entryDuration (now : Int) (e : Entry) : Int :=
  e.end_time.getD now - e.start_time

/-- The per-day total of `format_timebook` (commands.py lines 515-528):
the durations of the sheet's filtered entries whose local calendar day of
`start_time` is `d`, summed.  `localDay` is the local-calendar-day
function (`date(start_time,'unixepoch','localtime')`), supplied by the
environment's timezone. -/
def dayTotal (db : DBState) (sheet : String) (startB endB : Option Int)
    (now : Int) (localDay : Int → Int) (d : Int) : Int :=
  (((filteredEntries db sheet startB endB).filter
      (fun e => localDay e.start_time == d)).map (entryDuration now)).sum

/-- The grand total of `format_timebook` (commands.py lines 570-579): the
durations of all filtered entries of the sheet, summed. -/
def grandTotal (db : DBState) (sheet : String) (startB endB : Option Int)
    (now : Int) : Int :=
  ((filteredEntries db sheet startB endB).map (entryDuration now)).sum

/-- One listed row of the plain display (the columns selected by the
entries query of `format_timebook`, commands.py lines 531-545). -/
structure DisplayRow where
  day : Int
  start_time : Int
  end_time : Option Int
  duration : Int
  notes : String
deriving DecidableEq, Repr

/-- The columns of the entry row as `format_timebook` selects them. -/
def rowOf (now : Int) (localDay : Int → Int) (e : Entry) : DisplayRow :=
  { day := localDay e.start_time, start_time := e.start_time,
    end_time := e.end_time, duration := entryDuration now e,
    notes := e.description.getD "" }

/-- The listed rows of the plain display: the filtered entries of the
sheet ordered by `start_time` ascending (commands.py lines 531-545). -/
def displayRows (db : DBState) (sheet : String) (startB endB : Option Int)
    (now : Int) (localDay : Int → Int) : List DisplayRow :=
  ((filteredEntries db sheet startB endB).mergeSort
      (fun a b => decide (a.start_time ≤ b.start_time))).map (rowOf now localDay)

/-- One data row of the CSV export: the columns selected by `format_csv`
(commands.py lines 478-490); rows are restricted to `end_time is not
null`, so `end_time` is a present integer. -/
structure CsvRow where
  start_time : Int
  end_time : Int
  length : Int
  description : Option String
deriving DecidableEq, Repr

/-- The data rows of `format_csv`: entries of the sheet with a non-null
`end_time` that satisfy the where clause. -/
def csvDataRows (db : DBState) (sheet : String) (startB endB : Option Int)
    (now : Int) : List CsvRow :=
  (db.entries.filter (fun e =>
      e.sheet == sheet && e.end_time.isSome && passesWhere startB endB e)).map
    (fun e => { start_time := e.start_time, end_time := e.end_time.getD now,
                length := entryDuration now e, description := e.description })

/-- The trailing total row of the CSV export (commands.py lines 496-497):
a spreadsheet SUM formula over the length column of the `n` data rows. -/
def csvTotalRow (n : Nat) : List String :=
  ["Total", "", "=SUM(C2:C" ++ toString (n + 1) ++ ")/3600", ""]

/-- `format_csv` (commands.py lines 473-497): the header row, the data
rows, and the trailing total row.  Timestamp cells are shown here as the
raw values; their `'%m/%d/%Y %H:%M:%S'` rendering is the external
formatter's cosmetic concern. -/
def format_csv (db : DBState) (sheet : String) (startB endB : Option Int)
    (now : Int) : List (List String) :=
  let rows := csvDataRows db sheet startB endB now
  [["Start", "End", "Length", "Description"]] ++
    rows.map (fun r => [toString r.start_time, toString r.end_time,
      toString r.length, r.description.getD ""]) ++
    [csvTotalRow rows.length]

/-- Two entry rows of the same sheet are not both active. -/
def noTwoActive (a b : Entry) : Prop :=
  ¬(a.sheet = b.sheet ∧ a.end_time = none ∧ b.end_time = none)

instance (a b : Entry) : Decidable (noTwoActive a b) := by
  unfold noTwoActive; infer_instance

/-- The at-most-one-active-interval-per-sheet invariant: no two distinct
entry rows of the same sheet both have a null `end_time`. -/
def atMostOneActive (db : DBState) : Prop :=
  db.entries.Pairwise noTwoActive

instance (db : DBState) : Decidable (atMostOneActive db) := by
  unfold atMostOneActive; infer_instance

/-- A store whose "default" sheet has one active entry. -/
def dbAct : DBState :=
  { entries := [{ id := 1, sheet := "default", start_time := 100,
                  end_time := none, description := some "w", extra := none }],
    current_sheet := "default" }

/-- A store whose "default" sheet has one closed entry and no active one. -/
def dbClosed : DBState :=
  { entries := [{ id := 1, sheet := "default", start_time := 100,
                  end_time := some 150, description := some "w",
                  extra := none }],
    current_sheet := "default" }

/-- A store with no entries at all. -/
def dbEmpty : DBState :=
  { entries := [], current_sheet := "default" }

/-- A store whose current sheet "foo" has one closed entry. -/
def dbFoo : DBState :=
  { entries := [{ id := 1, sheet := "foo", start_time := 0,
                  end_time := some 5, description := none, extra := none }],
    current_sheet := "foo" }

/-- A store whose "default" sheet has one open entry (for the display
bound counterexample). -/
def dbOpen : DBState :=
  { entries := [{ id := 1, sheet := "default", start_time := 100,
                  end_time := none, description := none, extra := none }],
    current_sheet := "default" }

/-- A store whose "default" sheet has one closed and one open entry. -/
def dbMix : DBState :=
  { entries := [{ id := 1, sheet := "default", start_time := 100,
                  end_time := some 105, description := none, extra := none },
                { id := 2, sheet := "default", start_time := 110,
                  end_time := none, description := some "going",
                  extra := none }],
    current_sheet := "default" }

/-! ### Helper lemmas -/

theorem switch_entries (db : DBState) (s : String) :
    (switch db s).entries = db.entries := by
  unfold switch
  split <;> rfl

theorem switch_current_sheet (db : DBState) (s : String) :
    (switch db s).current_sheet = s := by
  unfold switch get_current_sheet
  split
  · rfl
  · next h => exact not_ne_iff.mp h

theorem applySwitch_entries (db : DBState) (sw : Option String) :
    (applySwitch db sw).entries = db.entries := by
  unfold applySwitch
  cases sw with
  | none => rfl
  | some s => by_cases h : s = "" <;> simp [h, switch_entries]

theorem get_active_info_applySwitch (db : DBState) (sw : Option String)
    (s : String) :
    get_active_info (applySwitch db sw) s = get_active_info db s := by
  unfold get_active_info
  rw [applySwitch_entries]

theorem get_most_recent_clockout_applySwitch (db : DBState)
    (sw : Option String) (s : String) :
    get_most_recent_clockout (applySwitch db sw) s =
      get_most_recent_clockout db s := by
  unfold get_most_recent_clockout
  rw [applySwitch_entries]

/-! ### C8: declined kill mutates nothing -/

/-- C8: a kill whose confirmation is declined leaves every entry row and
the current-sheet pointer unchanged, and the outcome is the normal
cancellation report (`true` flag), not an error. -/
theorem kill_declined_no_mutation (db : DBState) (timesheet : Option String) :
    kill db timesheet false = (db, true) := by
  unfold kill
  simp

/-! ### C2: kill's switch-to-default side effect -/

/-- C2 counterexample: with current sheet "foo", a confirmed
`kill foo` (the current sheet named explicitly) leaves the current-sheet
pointer at "foo"; it is not switched to "default" as the claim states. -/
theorem kill_explicit_current_keeps_pointer :
    (kill dbFoo (some "foo") true).1.current_sheet = "foo" ∧
    (kill dbFoo (some "foo") true).1.current_sheet ≠ "default" := by
  constructor
  · rfl
  · decide

/-- C2 amended: a confirmed kill switches the current-sheet pointer to
"default" exactly when the sheet argument was omitted (so the deletion
target defaulted to the current sheet); when a sheet is named explicitly
the pointer is left unchanged, even if it names the current sheet. -/
theorem kill_confirmed_switch_semantics (db : DBState) (confirm : Bool)
    (h : confirm = true) :
    (kill db none confirm).1.current_sheet = "default" ∧
    ∀ s, s ≠ "" → (kill db (some s) confirm).1.current_sheet =
      db.current_sheet := by
  subst h
  constructor
  · show (switch _ "default").current_sheet = "default"
    exact switch_current_sheet _ _
  · intro s hs
    unfold kill
    simp [hs]

theorem kill_confirmed_switch_semantics_witness :
    (kill dbFoo none true).1.current_sheet = "default" ∧
    (kill dbFoo (some "other") true).1.current_sheet = dbFoo.current_sheet := by
  have h := kill_confirmed_switch_semantics dbFoo true rfl
  exact ⟨h.1, h.2 "other" (by decide)⟩

/-! ### C5: clock-out duration check and update -/

/-- C5: with an active entry `(id, S)` on the current sheet and chosen
timestamp `ts`, clock-out fails with `NegativeDuration` exactly when
`ts - S < 0`; otherwise it succeeds, leaving the pointer unchanged and
setting `end_time = ts` on the active row only (rows with another id are
kept verbatim, and the updated row keeps all its other fields). -/
theorem clock_out_spec (db : DBState) (ts : Int) (a : Nat × Int)
    (h : get_current_start_time db = some a) :
    (clock_out db ts = .error .negativeDuration ↔ ts - a.2 < 0) ∧
    (0 ≤ ts - a.2 →
      ∃ db2, clock_out db ts = .ok db2 ∧
        db2.current_sheet = db.current_sheet ∧
        db2.entries = db.entries.map (fun e =>
          if e.id = a.1 then { e with end_time := some ts } else e) ∧
        (∀ e ∈ db.entries, e.id ≠ a.1 → e ∈ db2.entries) ∧
        (∀ e ∈ db.entries, e.id = a.1 →
          ({ e with end_time := some ts } : Entry) ∈ db2.entries)) := by
  constructor
  · by_cases hlt : ts - a.2 < 0 <;> simp [clock_out, h, hlt]
  · intro hge
    have hlt : ¬ts - a.2 < 0 := by omega
    refine ⟨{ db with entries := db.entries.map (fun e =>
        if e.id = a.1 then { e with end_time := some ts } else e) },
      by simp [clock_out, h, hlt], rfl, rfl, ?_, ?_⟩
    · intro e he hne
      exact List.mem_map.mpr ⟨e, he, by simp [hne]⟩
    · intro e he heq
      exact List.mem_map.mpr ⟨e, he, by simp [heq]⟩

theorem clock_out_spec_witness :
    get_current_start_time dbAct = some (1, 100) ∧
    (clock_out dbAct 50 = .error Err.negativeDuration ↔ (50 : Int) - 100 < 0) :=
  ⟨by decide, (clock_out_spec dbAct 50 (1, 100) (by decide)).1⟩

/-! ### C9: alter updates only the active entry's description -/

/-- C9: when the current sheet has no active entry, alter fails with
`SheetNotActive` and (the transaction having rolled back) changes
nothing; otherwise it succeeds, leaving the pointer unchanged, replacing
the active row's description with the joined words, keeping every other
row verbatim, and leaving id, sheet, `start_time` and `end_time` of every
resulting row those of a row already present. -/
theorem alter_spec (db : DBState) (description : List String) :
    (get_current_active_info db = none →
      runTxn (fun d => alter d description) db = (some .sheetNotActive, db)) ∧
    (∀ a, get_current_active_info db = some a →
      ∃ db2, alter db description = .ok db2 ∧
        db2.current_sheet = db.current_sheet ∧
        ({ a with description := some (String.intercalate " " description) } :
          Entry) ∈ db2.entries ∧
        (∀ e ∈ db.entries, e.id ≠ a.id → e ∈ db2.entries) ∧
        (∀ e ∈ db2.entries, ∃ e0 ∈ db.entries, e.id = e0.id ∧
          e.sheet = e0.sheet ∧ e.start_time = e0.start_time ∧
          e.end_time = e0.end_time)) := by
  constructor
  · intro hna
    simp [runTxn, alter, hna]
  · intro a ha
    have hmem : a ∈ db.entries := List.mem_of_find?_eq_some ha
    refine ⟨{ db with entries := db.entries.map (fun e =>
        if e.id = a.id then
          { e with description := some (String.intercalate " " description) }
        else e) },
      by simp [alter, ha], rfl, ?_, ?_, ?_⟩
    · exact List.mem_map.mpr ⟨a, hmem, by simp⟩
    · intro e he hne
      exact List.mem_map.mpr ⟨e, he, by simp [hne]⟩
    · intro e he
      obtain ⟨e0, he0, heq⟩ := List.mem_map.mp he
      refine ⟨e0, he0, ?_⟩
      subst heq
      by_cases hid : e0.id = a.id <;> simp [hid]

theorem alter_spec_witness :
    runTxn (fun d => alter d ["x"]) dbClosed = (some Err.sheetNotActive, dbClosed) :=
  (alter_spec dbClosed ["x"]).1 (by decide)

/-! ### C3: clock-in on an already-active sheet -/

/-- C3: a plain clock-in (no `--out`, and not the conflicting
`--resume`-with-description form, which is rejected earlier) whose target
sheet already has an entry with null `end_time` fails with
`SheetAlreadyActive`; the transaction rolls back, so the observable
storage, entry rows and current-sheet pointer alike, is the initial
state. -/
theorem in_already_active (db : DBState) (description : List String)
    (sw : Option String) (ts : Int) (resume : Bool) (extra : Option String)
    (hnr : ¬(resume ∧ description ≠ []))
    (ha : get_active_info db (targetSheet db sw) ≠ none) :
    runTxn (fun d => in_ d description sw false ts resume extra) db =
      (some .sheetAlreadyActive, db) := by
  obtain ⟨e, he⟩ := Option.ne_none_iff_exists.mp ha
  simp [runTxn, in_, in_core, hnr, get_active_info_applySwitch, ← he]

theorem in_already_active_witness :
    runTxn (fun d => in_ d [] none false 10 false none) dbAct =
      (some Err.sheetAlreadyActive, dbAct) :=
  in_already_active dbAct [] none 10 false none (by decide) (by decide)

/-! ### C10: resume on a sheet with no history -/

/-- C10: a clock-in with `--resume`, no explicit description, on a sheet
(the current one) with no active entry and no closed entry succeeds, and
the inserted row's description is null: resume is silently ignored when
there is no previous description to reuse. -/
theorem in_resume_no_history (db : DBState) (ts : Int) (extra : Option String)
    (hna : get_active_info db (get_current_sheet db) = none)
    (hnc : ∀ e ∈ db.entries, e.sheet = get_current_sheet db →
      e.end_time = none) :
    ∃ db2, in_ db [] none false ts true extra = .ok db2 ∧
      db2.entries = db.entries ++
        [{ id := nextId db, sheet := get_current_sheet db, start_time := ts,
           end_time := none, description := none, extra := extra }] := by
  have hmrc : get_most_recent_clockout db (get_current_sheet db) = none := by
    unfold get_most_recent_clockout
    have hnil : db.entries.filterMap (fun e =>
        if e.sheet == get_current_sheet db then
          e.end_time.map (fun t => (t, e.description))
        else none) = [] := by
      rw [List.filterMap_eq_nil_iff]
      intro e he
      by_cases hs : e.sheet == get_current_sheet db
      · rw [if_pos hs, hnc e he (by simpa using hs)]
        rfl
      · rw [if_neg hs]
    rw [hnil]
    rfl
  refine ⟨{ db with entries := db.entries ++
      [{ id := nextId db, sheet := get_current_sheet db, start_time := ts,
         end_time := none, description := none, extra := extra }] }, ?_, rfl⟩
  simp [in_, in_core, applySwitch, targetSheet, hna, hmrc, joinWords,
    insertEntry, String.intercalate]

theorem in_resume_no_history_witness :
    ∃ db2, in_ dbEmpty [] none false 7 true none = .ok db2 ∧
      db2.entries = dbEmpty.entries ++
        [{ id := nextId dbEmpty, sheet := get_current_sheet dbEmpty,
           start_time := 7, end_time := none, description := none,
           extra := none }] :=
  in_resume_no_history dbEmpty 7 none (by decide) (by decide)

/-! ### C4: clock-in time-ordering check -/

theorem mrcAux_ne_none {a : Int × Option String}
    {l : List (Int × Option String)} : mrcAux (a :: l) ≠ none := by
  unfold mrcAux
  cases mrcAux l with
  | none => simp
  | some q => by_cases h : a.1 ≥ q.1 <;> simp [h]

theorem mrcAux_eq_none {l : List (Int × Option String)} :
    mrcAux l = none ↔ l = [] := by
  cases l with
  | nil => simp [mrcAux]
  | cons a l => exact iff_of_false mrcAux_ne_none (by simp)

theorem mrcAux_mem_le {l : List (Int × Option String)}
    {p : Int × Option String} (h : mrcAux l = some p) :
    p ∈ l ∧ ∀ q ∈ l, q.1 ≤ p.1 := by
  induction l generalizing p with
  | nil => cases h
  | cons a l ih =>
    unfold mrcAux at h
    cases hm : mrcAux l with
    | none =>
      rw [hm] at h
      replace h : some a = some p := h
      obtain rfl : l = [] := mrcAux_eq_none.mp hm
      obtain rfl : a = p := Option.some.inj h
      exact ⟨List.mem_cons_self _ _, by simp⟩
    | some q =>
      rw [hm] at h
      replace h : (if a.1 ≥ q.1 then some a else some q) = some p := h
      obtain ⟨hqm, hqle⟩ := ih hm
      by_cases hge : a.1 ≥ q.1
      · rw [if_pos hge] at h
        obtain rfl : a = p := Option.some.inj h
        refine ⟨List.mem_cons_self _ _, ?_⟩
        intro r hr
        rcases List.mem_cons.mp hr with rfl | hrl
        · exact le_refl _
        · exact le_trans (hqle r hrl) hge
      · rw [if_neg hge] at h
        obtain rfl : q = p := Option.some.inj h
        refine ⟨List.mem_cons_of_mem a hqm, ?_⟩
        intro r hr
        rcases List.mem_cons.mp hr with rfl | hrl
        · omega
        · exact hqle r hrl

/-- The spec-modelled most-recent-clockout helper indeed yields the
`end_time` of a closed entry of the sheet, and no closed entry of the
sheet ends after it. -/
theorem get_most_recent_clockout_spec (db : DBState) (s : String)
    (p : Int × Option String) (h : get_most_recent_clockout db s = some p) :
    (∃ e ∈ db.entries, e.sheet = s ∧ e.end_time = some p.1 ∧
      e.description = p.2) ∧
    (∀ e ∈ db.entries, e.sheet = s → ∀ u, e.end_time = some u → u ≤ p.1) := by
  unfold get_most_recent_clockout at h
  obtain ⟨hmem, hle⟩ := mrcAux_mem_le h
  constructor
  · obtain ⟨e, he, hfe⟩ := List.mem_filterMap.mp hmem
    by_cases hs : e.sheet == s
    · rw [if_pos hs] at hfe
      obtain ⟨u, hu, huv⟩ := Option.map_eq_some'.mp hfe
      refine ⟨e, he, by simpa using hs, ?_, ?_⟩
      · rw [hu, ← huv]
      · rw [← huv]
    · rw [if_neg hs] at hfe
      cases hfe
  · intro e he hs u hu
    refine hle (u, e.description) (List.mem_filterMap.mpr ⟨e, he, ?_⟩)
    rw [if_pos (by simpa using hs), hu]
    rfl

/-- Reduction of the clock-in body when `--out` is not requested, the
resume/description conflict is absent and the target sheet is not
active: only the time-ordering check and the insert remain. -/
theorem in_core_no_out (db : DBState) (sheet : String)
    (description : List String) (ts : Int) (resume : Bool)
    (extra : Option String) (hnr : ¬(resume ∧ description ≠ []))
    (hna : get_active_info db sheet = none) :
    in_core db sheet description false ts resume extra =
      match get_most_recent_clockout db sheet with
      | some p =>
        if ts < p.1 then .error .timeOrderingViolation
        else .ok (insertEntry db sheet ts
            (if resume then p.2 else joinWords description) extra)
      | none => .ok (insertEntry db sheet ts (joinWords description) extra) := by
  unfold in_core
  rw [if_neg hnr]
  show (match get_active_info db sheet with
    | some _ => (Except.error Err.sheetAlreadyActive : Except Err DBState)
    | none =>
      match get_most_recent_clockout db sheet with
      | some p =>
        if ts < p.1 then Except.error Err.timeOrderingViolation
        else Except.ok (insertEntry db sheet ts
            (if resume then p.2 else joinWords description) extra)
      | none =>
        Except.ok (insertEntry db sheet ts (joinWords description) extra)) = _
  rw [hna]

/-- C4: a plain clock-in (no `--out`, no resume/description conflict) on
a sheet with no active entry fails with `TimeOrderingViolation` exactly
when the sheet has a most recent clock-out and the chosen timestamp is
strictly before it; when the sheet has no closed entry the check is
waived and the insert succeeds.  The most-recent-clockout value is the
`end_time` of the sheet's most recently closed entry, by
`get_most_recent_clockout_spec`. -/
theorem in_time_ordering (db : DBState) (description : List String)
    (sw : Option String) (ts : Int) (resume : Bool) (extra : Option String)
    (hnr : ¬(resume ∧ description ≠ []))
    (hna : get_active_info db (targetSheet db sw) = none) :
    (in_ db description sw false ts resume extra =
        .error .timeOrderingViolation ↔
      ∃ p, get_most_recent_clockout db (targetSheet db sw) = some p ∧
        ts < p.1) ∧
    (get_most_recent_clockout db (targetSheet db sw) = none →
      ∃ db2, in_ db description sw false ts resume extra = .ok db2) := by
  have hna1 : get_active_info (applySwitch db sw) (targetSheet db sw) = none := by
    rw [get_active_info_applySwitch]
    exact hna
  have hred : in_ db description sw false ts resume extra =
      match get_most_recent_clockout db (targetSheet db sw) with
      | some p =>
        if ts < p.1 then .error .timeOrderingViolation
        else .ok (insertEntry (applySwitch db sw) (targetSheet db sw) ts
            (if resume then p.2 else joinWords description) extra)
      | none => .ok (insertEntry (applySwitch db sw) (targetSheet db sw) ts
          (joinWords description) extra) := by
    unfold in_
    rw [in_core_no_out _ _ _ _ _ _ hnr hna1,
        get_most_recent_clockout_applySwitch]
  have hredSome : ∀ p, get_most_recent_clockout db (targetSheet db sw) = some p →
      in_ db description sw false ts resume extra =
        if ts < p.1 then .error .timeOrderingViolation
        else .ok (insertEntry (applySwitch db sw) (targetSheet db sw) ts
            (if resume then p.2 else joinWords description) extra) := by
    intro p hp
    simp only [hred, hp]
  have hredNone : get_most_recent_clockout db (targetSheet db sw) = none →
      in_ db description sw false ts resume extra =
        .ok (insertEntry (applySwitch db sw) (targetSheet db sw) ts
            (joinWords description) extra) := by
    intro hp
    simp only [hred, hp]
  constructor
  · cases hm : get_most_recent_clockout db (targetSheet db sw) with
    | none =>
      rw [hredNone hm]
      refine iff_of_false (by simp) ?_
      rintro ⟨p, hp, _⟩
      cases hp
    | some p =>
      rw [hredSome p hm]
      by_cases hlt : ts < p.1
      · rw [if_pos hlt]
        exact iff_of_true rfl ⟨p, rfl, hlt⟩
      · rw [if_neg hlt]
        refine iff_of_false (by simp) ?_
        rintro ⟨q, hq, hlt2⟩
        cases hq
        exact hlt hlt2
  · intro hm
    exact ⟨insertEntry (applySwitch db sw) (targetSheet db sw) ts
      (joinWords description) extra, hredNone hm⟩

theorem in_time_ordering_witness :
    (in_ dbClosed [] none false 120 false none =
        .error Err.timeOrderingViolation ↔
      ∃ p, get_most_recent_clockout dbClosed (targetSheet dbClosed none) =
        some p ∧ (120 : Int) < p.1) :=
  (in_time_ordering dbClosed [] none 120 false none (by decide) (by decide)).1

/-! ### C1: the invariant is preserved by every core operation -/

theorem noTwoActive_map {f : Entry → Entry}
    (hs : ∀ e, (f e).sheet = e.sheet)
    (he : ∀ e, (f e).end_time = none → e.end_time = none)
    {l : List Entry} (h : l.Pairwise noTwoActive) :
    (l.map f).Pairwise noTwoActive := by
  refine h.map f ?_
  intro a b hab hfab
  apply hab
  obtain ⟨h1, h2, h3⟩ := hfab
  rw [hs a, hs b] at h1
  exact ⟨h1, he a h2, he b h3⟩

theorem clock_out_preserves {db db2 : DBState} {ts : Int}
    (h : clock_out db ts = .ok db2) (hi : atMostOneActive db) :
    atMostOneActive db2 := by
  unfold clock_out at h
  cases ha : get_current_start_time db with
  | none =>
    rw [ha] at h
    exact Except.noConfusion h
  | some a =>
    rw [ha] at h
    dsimp only at h
    by_cases hlt : ts - a.2 < 0
    · rw [if_pos hlt] at h
      exact Except.noConfusion h
    · rw [if_neg hlt] at h
      cases Except.ok.inj h
      refine noTwoActive_map ?_ ?_ hi
      · intro e
        by_cases hid : e.id = a.1 <;> simp [hid]
      · intro e hnone
        by_cases hid : e.id = a.1
        · simp [hid] at hnone
        · simpa [hid] using hnone

theorem alter_preserves {db db2 : DBState} {description : List String}
    (h : alter db description = .ok db2) (hi : atMostOneActive db) :
    atMostOneActive db2 := by
  unfold alter at h
  cases ha : get_current_active_info db with
  | none =>
    rw [ha] at h
    exact Except.noConfusion h
  | some a =>
    rw [ha] at h
    dsimp only at h
    cases Except.ok.inj h
    refine noTwoActive_map ?_ ?_ hi
    · intro e
      by_cases hid : e.id = a.id <;> simp [hid]
    · intro e hnone
      by_cases hid : e.id = a.id
      · simpa [hid] using hnone
      · simpa [hid] using hnone

theorem switch_preserves (db : DBState) (s : String)
    (hi : atMostOneActive db) : atMostOneActive (switch db s) := by
  unfold atMostOneActive
  rw [switch_entries]
  exact hi

theorem filter_preserves (db : DBState) (q : Entry → Bool)
    (hi : atMostOneActive db) :
    atMostOneActive { db with entries := db.entries.filter q } :=
  List.Pairwise.sublist (List.filter_sublist _) hi

theorem kill_preserves (db : DBState) (timesheet : Option String)
    (confirm : Bool) (hi : atMostOneActive db) :
    atMostOneActive (kill db timesheet confirm).1 := by
  unfold kill
  cases confirm with
  | false => simpa using hi
  | true =>
    rw [if_neg (by simp)]
    cases timesheet with
    | none => exact switch_preserves _ _ (filter_preserves _ _ hi)
    | some s =>
      by_cases hs : s = ""
      · subst hs
        exact switch_preserves _ _ (filter_preserves _ _ hi)
      · simp only [if_neg hs]
        exact filter_preserves _ _ hi

theorem insert_preserves (db : DBState) (sheet : String) (ts : Int)
    (d x : Option String) (hna : get_active_info db sheet = none)
    (hi : atMostOneActive db) :
    atMostOneActive (insertEntry db sheet ts d x) := by
  have hall : ∀ e ∈ db.entries, ¬(e.sheet = sheet ∧ e.end_time = none) := by
    intro e he hc
    have hfind := List.find?_eq_none.mp hna e he
    simp [hc.1, hc.2] at hfind
  unfold atMostOneActive insertEntry
  rw [List.pairwise_append]
  refine ⟨hi, List.pairwise_singleton _ _, ?_⟩
  intro a ha b hb
  obtain rfl := List.mem_singleton.mp hb
  intro hc
  exact hall a ha ⟨hc.1, hc.2.1⟩

theorem in_preserves {db db2 : DBState} {description : List String}
    {sw : Option String} {out : Bool} {ts : Int} {resume : Bool}
    {extra : Option String}
    (h : in_ db description sw out ts resume extra = .ok db2)
    (hi : atMostOneActive db) : atMostOneActive db2 := by
  unfold in_ in_core at h
  by_cases hc : resume ∧ description ≠ []
  · rw [if_pos hc] at h
    exact Except.noConfusion h
  · rw [if_neg hc] at h
    have hi1 : atMostOneActive (applySwitch db sw) := by
      unfold atMostOneActive
      rw [applySwitch_entries]
      exact hi
    cases hstep : (if out then clock_out (applySwitch db sw) ts
        else .ok (applySwitch db sw)) with
    | error e =>
      rw [hstep] at h
      exact Except.noConfusion h
    | ok db1 =>
      rw [hstep] at h
      dsimp only at h
      have hi2 : atMostOneActive db1 := by
        cases out with
        | false =>
          replace hstep : (Except.ok (applySwitch db sw) :
              Except Err DBState) = .ok db1 := hstep
          cases Except.ok.inj hstep
          exact hi1
        | true =>
          replace hstep : clock_out (applySwitch db sw) ts = .ok db1 := hstep
          exact clock_out_preserves hstep hi1
      cases hai : get_active_info db1 (targetSheet db sw) with
      | some a =>
        rw [hai] at h
        exact Except.noConfusion h
      | none =>
        rw [hai] at h
        dsimp only at h
        cases hm : get_most_recent_clockout db1 (targetSheet db sw) with
        | some p =>
          rw [hm] at h
          dsimp only at h
          by_cases hlt : ts < p.1
          · rw [if_pos hlt] at h
            exact Except.noConfusion h
          · rw [if_neg hlt] at h
            cases Except.ok.inj h
            exact insert_preserves _ _ _ _ _ hai hi2
        | none =>
          rw [hm] at h
          dsimp only at h
          cases Except.ok.inj h
          exact insert_preserves _ _ _ _ _ hai hi2

/-- C1: every core operation (clock-in, clock-out, alter, switch, kill),
started in a state where every sheet has at most one entry with null
`end_time`, leaves a state that still satisfies that invariant whenever
it completes normally (a failed operation rolls back to the initial
state, which satisfies it by hypothesis). -/
theorem core_ops_preserve_invariant (db : DBState)
    (hi : atMostOneActive db) :
    (∀ description sw out ts resume extra db2,
      in_ db description sw out ts resume extra = .ok db2 →
        atMostOneActive db2) ∧
    (∀ ts db2, clock_out db ts = .ok db2 → atMostOneActive db2) ∧
    (∀ description db2, alter db description = .ok db2 →
      atMostOneActive db2) ∧
    (∀ s, atMostOneActive (switch db s)) ∧
    (∀ timesheet confirm, atMostOneActive (kill db timesheet confirm).1) :=
  ⟨fun _ _ _ _ _ _ _ h => in_preserves h hi,
   fun _ _ h => clock_out_preserves h hi,
   fun _ _ h => alter_preserves h hi,
   fun s => switch_preserves db s hi,
   fun timesheet confirm => kill_preserves db timesheet confirm hi⟩

theorem core_ops_preserve_invariant_witness :
    atMostOneActive (kill dbAct none true).1 ∧
    atMostOneActive (switch dbAct "work") := by
  have h := core_ops_preserve_invariant dbAct (by decide)
  exact ⟨h.2.2.2.2 none true, h.2.2.2.1 "work"⟩

/-! ### C6: plain display and open intervals -/

/-- C6 counterexample: with an end date bound, an open interval (null
`end_time`) is excluded from the plain display entirely, because the
where clause's `end_time <= bound` comparison is null for it.  `dbOpen`
has exactly one entry, an open one on "default"; with end bound 1000 the
listed rows are empty and the grand total is 0 instead of counting the
interval from its start through "now" = 200. -/
theorem display_endbound_excludes_open :
    filteredEntries dbOpen "default" none (some 1000) = [] ∧
    displayRows dbOpen "default" none (some 1000) 200 (fun t => t / 86400) =
      [] ∧
    grandTotal dbOpen "default" none (some 1000) 200 = 0 := by
  have h1 : filteredEntries dbOpen "default" none (some 1000) = [] := rfl
  refine ⟨h1, ?_, rfl⟩
  simp [displayRows, h1]

/-- C6 amended: in plain mode with no end bound, every open interval of
the sheet that passes the start bound appears among the listed rows on
its local day, and is counted from its `start_time` through "now" in both
its day's total and the grand total; an end date bound instead excludes
open intervals entirely (`display_endbound_excludes_open`). -/
theorem display_plain_counts_open_through_now (db : DBState) (sheet : String)
    (startB : Option Int) (now : Int) (localDay : Int → Int) (e : Entry)
    (he : e ∈ db.entries) (hs : e.sheet = sheet) (hopen : e.end_time = none)
    (hstart : startPass startB e = true) :
    e ∈ filteredEntries db sheet startB none ∧
    rowOf now localDay e ∈ displayRows db sheet startB none now localDay ∧
    (rowOf now localDay e).day = localDay e.start_time ∧
    (rowOf now localDay e).duration = now - e.start_time ∧
    dayTotal db sheet startB none now localDay (localDay e.start_time) =
      (now - e.start_time) +
        ((((filteredEntries db sheet startB none).filter (fun x =>
            localDay x.start_time == localDay e.start_time)).erase e).map
          (entryDuration now)).sum ∧
    grandTotal db sheet startB none now =
      (now - e.start_time) +
        (((filteredEntries db sheet startB none).erase e).map
          (entryDuration now)).sum := by
  have hmem : e ∈ filteredEntries db sheet startB none := by
    refine List.mem_filter.mpr ⟨he, ?_⟩
    simp [hs, passesWhere, hstart, endPass]
  have hdur : entryDuration now e = now - e.start_time := by
    simp [entryDuration, hopen]
  refine ⟨hmem, ?_, rfl, hdur, ?_, ?_⟩
  · exact List.mem_map.mpr ⟨e,
      (List.mergeSort_perm _ _).mem_iff.mpr hmem, rfl⟩
  · have hmem2 : e ∈ (filteredEntries db sheet startB none).filter (fun x =>
        localDay x.start_time == localDay e.start_time) :=
      List.mem_filter.mpr ⟨hmem, by simp⟩
    have hperm := List.perm_cons_erase hmem2
    unfold dayTotal
    rw [(hperm.map (entryDuration now)).sum_eq, List.map_cons, List.sum_cons,
      hdur]
  · have hperm := List.perm_cons_erase hmem
    unfold grandTotal
    rw [(hperm.map (entryDuration now)).sum_eq, List.map_cons, List.sum_cons,
      hdur]

theorem display_plain_counts_open_through_now_witness :
    rowOf 200 (fun t => t / 86400)
        ({ id := 2, sheet := "default", start_time := 110, end_time := none,
           description := some "going", extra := none } : Entry) ∈
      displayRows dbMix "default" none none 200 (fun t => t / 86400) :=
  (display_plain_counts_open_through_now dbMix "default" none 200
    (fun t => t / 86400)
    { id := 2, sheet := "default", start_time := 110, end_time := none,
      description := some "going", extra := none }
    (by decide) rfl rfl rfl).2.1

/-! ### C7: CSV export and open intervals -/

/-- C7: the CSV export's data rows are unchanged when every open entry is
dropped first (open entries are excluded entirely by the `end_time is not
null` condition), every emitted data row stems from a closed entry of the
sheet, and the emitted output ends with the total row carrying the
spreadsheet SUM formula over the data rows. -/
theorem format_csv_excludes_open (db : DBState) (sheet : String)
    (startB endB : Option Int) (now : Int) :
    csvDataRows db sheet startB endB now =
      csvDataRows
        { db with entries := db.entries.filter (fun e => e.end_time.isSome) }
        sheet startB endB now ∧
    (∀ r ∈ csvDataRows db sheet startB endB now,
      ∃ e ∈ db.entries, e.sheet = sheet ∧ e.end_time = some r.end_time ∧
        r.start_time = e.start_time) ∧
    (format_csv db sheet startB endB now).getLast? =
      some (csvTotalRow (csvDataRows db sheet startB endB now).length) := by
  refine ⟨?_, ?_, ?_⟩
  · unfold csvDataRows
    dsimp only
    rw [List.filter_filter]
    congr 1
    apply List.filter_congr
    intro a _
    cases hsome : a.end_time.isSome <;> simp [hsome]
  · intro r hr
    obtain ⟨e, he, hre⟩ := List.mem_map.mp hr
    obtain ⟨he2, hp⟩ := List.mem_filter.mp he
    simp only [Bool.and_eq_true] at hp
    obtain ⟨⟨hsheet, hsome⟩, _⟩ := hp
    obtain ⟨v, hv⟩ := Option.isSome_iff_exists.mp hsome
    subst hre
    refine ⟨e, he2, by simpa using hsheet, ?_, rfl⟩
    simp [hv]
  · unfold format_csv
    dsimp only
    rw [List.getLast?_concat]

theorem format_csv_excludes_open_witness :
    ∃ e ∈ dbMix.entries, e.sheet = "default" ∧ e.end_time = some (105 : Int) ∧
      (100 : Int) = e.start_time :=
  (format_csv_excludes_open dbMix "default" none none 200).2.1
    { start_time := 100, end_time := 105, length := 5, description := none }
    (by decide)

end Timebook
